import Mathlib

/-!
A shallow embedding of the `blink-camera-system` client library
(`src/blink-camera-system.ts`, `src/create-blink-urls.ts`, `src/types.ts`,
`src/blink-device.ts`) in Lean 4.

Network I/O is modelled by passing the transport's outcome for each request
as an explicit `Except` argument and by returning the list of requests the
operation issues, in order.  Mutation of the `BlinkCameraSystem` object is
modelled by explicit state passing over `SysState`.  JavaScript values that
may be `null`/`undefined` at runtime are modelled as `Option`; template
interpolation of `null` is modelled by rendering the string `"null"`.
-/

/-- Modelled from the spec: the platform host constant `BLINK_URL` from
`src/constants.ts`, which is not present under `src/`.  The spec's §8 example
base URL `https://rest-u001.example.com` fixes the host used here; every
theorem below that depends on URL shape is stated relative to `BLINK_URL`
itself, so the concrete host value is immaterial. -/
def BLINK_URL : String := "example.com"

/-- Modelled from the spec: the non-2FA login endpoint constant `LOGIN_URL`
from `src/constants.ts` (not under `src/`).  Only its identity matters to the
theorems (which login endpoint a request was sent to), never its value. -/
def LOGIN_URL : String := "https://rest-prod." ++ BLINK_URL ++ "/api/v4/account/login"

/-- Modelled from the spec: the 2FA login endpoint constant `LOGIN_URL_2FA`
from `src/constants.ts` (not under `src/`). -/
def LOGIN_URL_2FA : String := "https://rest-prod." ++ BLINK_URL ++ "/api/v5/account/login"

/-- The `EndpointSet` returned by `createBlinkUrls` (`src/create-blink-urls.ts`). -/
structure BlinkUrls where
  baseUrl : String
  networkUrl : String
  armUrl : String
  videoUrl : String
  homeUrl : String
deriving DecidableEq, Repr

/-- JS template interpolation of a possibly-`null` number: `null` renders as
the literal string `"null"`. -/
def jsNum : Option Nat → String
  | none => "null"
  | some n => toString n

/-- JS template interpolation of a possibly-`null` string. -/
def jsStr : Option String → String
  | none => "null"
  | some s => s

/-- `createBlinkUrls` from `src/create-blink-urls.ts`.  The TS signature takes
`(accountId: number, regionId: string)`, but the token-setup path passes the
field values through non-null assertions while `_accountId` is still `null`
at runtime, so the parameters are modelled as nullable. -/
def createBlinkUrls (accountId : Option Nat) (regionId : Option String) : BlinkUrls :=
  let baseUrl := "https://rest-" ++ jsStr regionId ++ "." ++ BLINK_URL
  { baseUrl := baseUrl
    networkUrl := baseUrl ++ "/network/"
    armUrl := baseUrl ++ "/api/v1/accounts/" ++ jsNum accountId ++ "/networks/"
    videoUrl := baseUrl ++ "/api/v1/accounts/" ++ jsNum accountId ++ "/media/changed"
    homeUrl := baseUrl ++ "/api/v3/accounts/" ++ jsNum accountId ++ "/homescreen" }

/-- `BlinkNetwork` from `src/types.ts`. -/
structure BlinkNetwork where
  id : Nat
  name : String
  armed : Bool
deriving DecidableEq, Repr

/-- `BlinkSyncModule` from `src/types.ts`; `status` is the wire string,
`"online"` or `"offline"`. -/
structure BlinkSyncModule where
  id : Nat
  network_id : Nat
  status : String
deriving DecidableEq, Repr

/-- The `signals` record of a device descriptor (`wifi`, `lfr`, `temp`). -/
structure CameraSignals where
  wifi : Int
  lfr : Int
  temp : Int
deriving DecidableEq, Repr

/-- `BlinkDeviceResponse` from `src/types.ts`.  `region_id` is typed `string`
in TS but `getCameras` assigns `this._regionId as string` into it, which is
`null` at runtime until login completes, hence `Option String` here. -/
structure BlinkDeviceResponse where
  id : Nat
  name : String
  type : String
  network_id : Nat
  region_id : Option String
  status : String
  enabled : Bool
  thumbnail : String
  signals : Option CameraSignals
  battery : Nat
  updated_at : Nat
deriving DecidableEq, Repr

/-- `SummaryResponse` from `src/types.ts`. -/
structure SummaryResponse where
  networks : List BlinkNetwork
  sync_modules : List BlinkSyncModule
  cameras : List BlinkDeviceResponse
  owls : List BlinkDeviceResponse
deriving DecidableEq, Repr

/-- `VideoResponse` from `src/types.ts`. -/
structure VideoResponse where
  camera_id : Nat
  type : String
  video_url : String
  created_at : Nat
deriving DecidableEq, Repr

/-- `MotionEvent` from `src/types.ts`. -/
structure MotionEvent where
  video : String
  image : String
  time : Nat
deriving DecidableEq, Repr

/-- A `Record<string, string>` auth header whose values may be `null` at
runtime (the `token-auth` value is `this._token!`). -/
abbrev AuthHeader : Type := List (String × Option String)

/-- The two exception classes of `src/blink-exceptions.ts` (that file is not
under `src/`; the classes are plain message-carrying errors, per the spec's
error taxonomy: `BlinkException` covers Session/NotFound/Operation errors and
`BlinkAuthenticationException` covers AuthenticationError). -/
inductive BlinkError where
  | exception (msg : String)
  | authException (msg : String)
deriving DecidableEq, Repr

/-- HTTP method of an issued request. -/
inductive HttpMethod where
  | get
  | post
deriving DecidableEq, Repr

/-- One network request issued by an operation, in the order issued. -/
structure Request where
  method : HttpMethod
  url : String
  headers : AuthHeader
deriving DecidableEq, Repr

/-- The `BlinkDevice` object of `src/blink-device.ts`.  The `_motion` field is
initialised to an empty object `\x7b\x7d` in TS and only ever reassigned to a
`MotionEvent`, modelled as `Option MotionEvent` starting at `none`. -/
structure BlinkDevice where
  urls : BlinkUrls
  data : BlinkDeviceResponse
  thumbUrl : String
  clipUrl : String
  motion : Option MotionEvent
  authHeader : AuthHeader
  imageLink : Option String
  armLink : Option String
deriving DecidableEq, Repr

/-- The `BlinkDevice` constructor (`src/blink-device.ts`, lines 22-48). -/
def mkBlinkDevice (data : BlinkDeviceResponse) (urls : BlinkUrls)
    (authHeader : AuthHeader) : BlinkDevice :=
  let networkIdUrl := urls.networkUrl ++ toString data.network_id
  { urls := urls
    data := data
    thumbUrl := urls.baseUrl ++ data.thumbnail ++ ".jpg"
    clipUrl := urls.baseUrl ++ data.thumbnail ++ ".mp4"
    motion := none
    authHeader := authHeader
    armLink := some (networkIdUrl ++ "/camera/" ++ toString data.id ++ "/")
    imageLink := some
      (if data.type == "owl" then
        urls.armUrl ++ toString data.network_id ++ "/owls/" ++ toString data.id ++ "/thumbnail"
      else if data.type == "doorbell" then
        urls.armUrl ++ toString data.network_id ++ "/doorbells/" ++ toString data.id ++ "/thumbnail"
      else
        networkIdUrl ++ "/camera/" ++ toString data.id ++ "/thumbnail") }

/-- `BlinkDevice.update` (`src/blink-device.ts`, lines 191-195): replace the
raw descriptor and re-derive the thumbnail and clip URLs only. -/
def BlinkDevice.update (device : BlinkDevice) (values : BlinkDeviceResponse) : BlinkDevice :=
  { device with
    data := values
    thumbUrl := device.urls.baseUrl ++ values.thumbnail ++ ".jpg"
    clipUrl := device.urls.baseUrl ++ values.thumbnail ++ ".mp4" }

/-- Whether the JS regex literal `/\.[^.]+$]/` of `getLastMotions`
(`src/blink-camera-system.ts`, line 182) matches at start position `i` with
the `[^.]+` group consuming `n` characters of `cs`: a literal dot at `i`,
then `n ≥ 1` non-dot characters, then the end-of-input assertion `$`
(so `i + 1 + n` must equal the length), then one further literal `]`
character, which would have to sit beyond the end of the input. -/
def motionRegexMatchAt (cs : List Char) (i n : Nat) : Bool :=
  decide (1 ≤ n)
    && (cs.get? i == some '.')
    && ((List.range n).all fun t => ((cs.get? (i + 1 + t)).map (· != '.')).getD false)
    && decide (i + 1 + n = cs.length)
    && (cs.get? (i + 1 + n) == some ']')

/-- First match of the regex `/\.[^.]+$]/` over the whole input, as
(start position, length of the `[^.]+` group). -/
def motionRegexFirstMatch (cs : List Char) : Option (Nat × Nat) :=
  (List.range cs.length).findSome? fun i =>
    ((List.range (cs.length + 1)).find? fun n => motionRegexMatchAt cs i n).map fun n => (i, n)

/-- `url.replace(/\.[^.]+$]/, '.jpg')` from `getLastMotions`: replace the
first match of the regex with `".jpg"`; when the regex does not match, JS
`String.prototype.replace` returns the input unchanged. -/
def jsReplaceMotionImage (url : String) : String :=
  match motionRegexFirstMatch url.data with
  | some (i, n) => String.mk (url.data.take i ++ (".jpg".data) ++ url.data.drop (i + 1 + n + 1))
  | none => url

theorem motionRegexMatchAt_false (cs : List Char) (i n : Nat) :
    motionRegexMatchAt cs i n = false := by
  unfold motionRegexMatchAt
  by_cases h : i + 1 + n = cs.length
  · have hnone : cs[i + 1 + n]? = none := List.getElem?_eq_none (by omega)
    simp [hnone]
  · simp [h]

theorem motionRegexFirstMatch_none (cs : List Char) : motionRegexFirstMatch cs = none := by
  unfold motionRegexFirstMatch
  rw [List.findSome?_eq_none_iff]
  intro i _
  have : ((List.range (cs.length + 1)).find? fun n => motionRegexMatchAt cs i n) = none := by
    rw [List.find?_eq_none]
    intro n _
    simp [motionRegexMatchAt_false]
  rw [this]
  rfl

/-- The stray `]` after the `$` anchor makes the regex unmatchable, so the
substitution of `getLastMotions` never fires: the "image" URL is always the
unmodified video URL. -/
theorem jsReplaceMotionImage_id (url : String) : jsReplaceMotionImage url = url := by
  unfold jsReplaceMotionImage
  rw [motionRegexFirstMatch_none]

/-- The mutable fields of the `BlinkCameraSystem` object
(`src/blink-camera-system.ts`, lines 21-45).  Credential fields are
`Option String`: `none` models a non-string JS value (`null`/`undefined`)
flowing in through the untyped `Object.assign(this, options)`.  The
`debug`/`deviceName` fields only affect console logging and the login payload
body, neither of which the claims concern, and the unused `_events` array is
omitted. -/
structure SysState where
  username : Option String
  password : Option String
  deviceId : Option String
  token : Option String
  authHeader : Option AuthHeader
  networks : List BlinkNetwork
  accountId : Option Nat
  region : Option String
  regionId : Option String
  host : Option String
  devices : List BlinkDevice
  auth2fa : Bool
  verificationTimeout : Nat
  urls : BlinkUrls
deriving DecidableEq, Repr

/-- The `BlinkCameraSystem` constructor: session fields empty, device and
network collections empty, `_verificationTimeout` 60 000 ms, URLs blank.
`token`/`regionId` are the optional pre-existing credentials a caller may
inject through the options object. -/
def mkBlinkCameraSystem (username password deviceId token regionId : Option String)
    (auth2fa : Bool) : SysState :=
  { username := username
    password := password
    deviceId := deviceId
    token := token
    authHeader := none
    networks := []
    accountId := none
    region := none
    regionId := regionId
    host := none
    devices := []
    auth2fa := auth2fa
    verificationTimeout := 60000
    urls := { baseUrl := "", networkUrl := "", armUrl := "", videoUrl := "", homeUrl := "" } }

/-- `_setupWithToken` (`src/blink-camera-system.ts`, lines 300-306): build the
host, the auth header and the EndpointSet directly from the supplied token and
region, with no network round trip.  `_accountId` is still `null` here, so the
account-scoped URLs interpolate the string `"null"`. -/
def setupWithToken (st : SysState) : SysState :=
  { st with
    host := some ("rest-" ++ jsStr st.regionId ++ "." ++ BLINK_URL)
    authHeader := some [("token-auth", st.token)]
    urls := createBlinkUrls st.accountId st.regionId }

/-- The `saveAuthResult` closure inside `_getAuthToken` (lines 337-344):
identical to `_setupWithToken`, reading the session fields stored just
before it is invoked. -/
def saveAuthResult (st : SysState) : SysState :=
  { st with
    host := some ("rest-" ++ jsStr st.regionId ++ "." ++ BLINK_URL)
    authHeader := some [("token-auth", st.token)]
    urls := createBlinkUrls st.accountId st.regionId }

/-- The wire `account` object of a login response. -/
structure LoginAccount where
  account_id : Nat
  client_id : Nat
  tier : String
  region : Option String
  account_verification_required : Bool
  client_verification_required : Bool
deriving DecidableEq, Repr

/-- A login response body: the `account` object plus `auth.token`. -/
structure LoginResponseData where
  account : LoginAccount
  authToken : String
deriving DecidableEq, Repr

/-- The environment of `_getAuthToken`: the transport outcome of the login
POST for each attempt number (`retries` index), and the transport outcome of
the 2FA pin-verification POST.  A `.error` value carries the remote error
body that the code JSON-stringifies into its exception message.  The
interactive pin prompt itself is an external collaborator; only the outcome
of the verification request it leads to is material. -/
structure AuthEnv where
  login : Nat → Except String LoginResponseData
  pinVerify : Except String Unit

/-- Events observable in a run of `_getAuthToken`: login POSTs (with the
endpoint chosen by the 2FA flag), the `setTimeout` scheduling of the single
no-2FA verification retry (with its delay), and the pin-verification POST. -/
inductive AuthEvent where
  | loginRequest (url : String)
  | retryScheduled (delayMs : Nat)
  | pinRequest (url : String)
deriving DecidableEq, Repr

/-- Whether an event is a login attempt. -/
def AuthEvent.isLoginRequest : AuthEvent → Bool
  | .loginRequest _ => true
  | _ => false

/-- JS falsiness of `account.region` (`!account.region`): absent or empty. -/
def jsFalsyOptStr : Option String → Bool
  | none => true
  | some s => decide (s = "")

/-- `_getAuthToken` (`src/blink-camera-system.ts`, lines 308-425), as a
state-machine over `SysState` returning the final state, the ordered event
trace, and the outcome.  The `fuel` argument only bounds the recursion depth
for Lean's termination checker; the theorems below hold for every sufficient
fuel, so no behaviour is cut off by it (the code's own `retries === 1` check
stops the recursion at depth two). -/
def getAuthToken (env : AuthEnv) :
    Nat → Nat → SysState → SysState × List AuthEvent × Except BlinkError Unit
  | 0, _, st => (st, [], .error (.exception "recursion fuel exhausted"))
  | fuel + 1, retries, st =>
    if st.username.isNone then
      (st, [], .error (.authException "Username must be a string"))
    else if st.password.isNone then
      (st, [], .error (.authException "Password must be a string"))
    else if st.deviceId.isNone then
      (st, [], .error (.authException "Device ID must be a string"))
    else
      let loginUrl := if st.auth2fa then LOGIN_URL_2FA else LOGIN_URL
      match env.login retries with
      | .error body =>
        (st, [.loginRequest loginUrl],
          .error (.authException ("Authentication problem (response): " ++ body)))
      | .ok respData =>
        let account := respData.account
        if account.account_verification_required || account.client_verification_required then
          if !st.auth2fa then
            if retries = 1 then
              (st, [.loginRequest loginUrl],
                .error (.authException "Authentication problem (retry): verification timeout"))
            else
              let rest := getAuthToken env fuel (retries + 1) st
              (rest.1, .loginRequest loginUrl :: .retryScheduled st.verificationTimeout :: rest.2.1,
                rest.2.2)
          else
            let st1 := { st with
              regionId := some account.tier
              region := account.region
              token := some respData.authToken
              accountId := some account.account_id }
            let urls := createBlinkUrls (some account.account_id) (some account.tier)
            let pinUrl := urls.baseUrl ++ "/api/v4/account/" ++ toString account.account_id
              ++ "/client/" ++ toString account.client_id ++ "/pin/verify"
            match env.pinVerify with
            | .error body =>
              (st1, [.loginRequest loginUrl, .pinRequest pinUrl],
                .error (.authException ("Authentication problem (verify response): " ++ body)))
            | .ok _ =>
              (saveAuthResult st1, [.loginRequest loginUrl, .pinRequest pinUrl], .ok ())
        else if jsFalsyOptStr account.region then
          (st, [.loginRequest loginUrl],
            .error (.authException "login response carried no account region"))
        else
          let st1 := { st with
            regionId := some account.tier
            region := account.region
            token := some respData.authToken
            accountId := some account.account_id }
          (saveAuthResult st1, [.loginRequest loginUrl], .ok ())

/-- The summary filtering of `getSummary` (`src/blink-camera-system.ts`,
lines 127-137): restrict all four collections to the selected networks. -/
def filterSummary (selected : List BlinkNetwork) (summary : SummaryResponse) : SummaryResponse :=
  { networks := summary.networks.filter fun nw => selected.any fun n => n.id == nw.id
    sync_modules := summary.sync_modules.filter fun m => selected.any fun n => n.id == m.network_id
    cameras := summary.cameras.filter fun c => selected.any fun n => n.id == c.network_id
    owls := summary.owls.filter fun o => selected.any fun n => n.id == o.network_id }

/-- `getSummary` (`src/blink-camera-system.ts`, lines 105-140): fail with the
session error before any request when `_authHeader` is unset; otherwise GET
the home URL and filter the result to the selected networks. -/
def getSummary (st : SysState) (resp : Except String SummaryResponse) :
    List Request × Except BlinkError SummaryResponse :=
  match st.authHeader with
  | none => ([], .error (.exception "Authentication token must be set"))
  | some hdr =>
    let req : Request := { method := .get, url := st.urls.homeUrl, headers := hdr }
    match resp with
    | .error _ => ([req], .error (.exception "Can\x27t retrieve system summary"))
    | .ok summary => ([req], .ok (filterSummary st.networks summary))

/-- `new Date(2008).toISOString()`: the default `since` of `getVideos` is
2008 milliseconds after the Unix epoch. -/
def DEFAULT_SINCE_ISO : String := "1970-01-01T00:00:02.008Z"

/-- `getVideos` (`src/blink-camera-system.ts`, lines 242-257): no session
check at all — the GET is issued unconditionally, with
`this._authHeader || \x7b\x7d` (so an empty header map when the session is
empty). -/
def getVideos (st : SysState) (resp : Except String (List VideoResponse))
    (page : Nat) (sinceIso : String) :
    List Request × Except BlinkError (List VideoResponse) :=
  let req : Request :=
    { method := .get
      url := st.urls.videoUrl ++ "?since=" ++ sinceIso ++ "&page=" ++ toString page
      headers := st.authHeader.getD [] }
  match resp with
  | .error _ => ([req], .error (.exception "Can\x27t fetch videos"))
  | .ok videos => ([req], .ok videos)

/-- The `name_or_id` argument of `getIDs`: a JS number or string. -/
inductive NameOrId where
  | num (n : Nat)
  | str (s : String)
deriving DecidableEq, Repr

/-- JS abstract equality (`==`) between a number and a string: the string is
coerced to a number and the numbers compared.  For the decimal identifiers
arising in this API this coincides with comparing the canonical decimal
rendering of the number against the string, which is how it is modelled. -/
def jsLooseEqNumStr (n : Nat) (s : String) : Bool :=
  toString n == s

/-- The match predicate of `getIDs` (`n.id == name_or_id || n.name == name_or_id`
with JS loose equality). -/
def networkMatches (q : NameOrId) (n : BlinkNetwork) : Bool :=
  match q with
  | .num k => n.id == k || jsLooseEqNumStr k n.name
  | .str s => jsLooseEqNumStr n.id s || n.name == s

/-- Template interpolation of `name_or_id` into the NotFound message. -/
def nameOrIdToString : NameOrId → String
  | .num k => toString k
  | .str s => s

/-- The home-screen document as read by `getIDs`: it touches only
`response.data.networks` and `response.data.account.id` (the same endpoint's
document is read as a `SummaryResponse` by `getSummary`). -/
structure HomeResponse where
  networks : List BlinkNetwork
  accountId : Nat
deriving DecidableEq, Repr

/-- The tail of `getIDs` (lines 460-463): capture the account id from the
response and rederive the EndpointSet from it and the current region. -/
def finishGetIDs (st : SysState) (home : HomeResponse) : SysState :=
  { st with
    accountId := some home.accountId
    urls := createBlinkUrls (some home.accountId) st.regionId }

/-- `getIDs` (`src/blink-camera-system.ts`, lines 427-464): fail fast when no
auth header is set; otherwise GET the home URL; with `name_or_id`, append all
loosely-matching networks to the selection (NotFound when none match), else
select all networks (NotFound when the account has none); finally capture the
account id and rederive the URLs. -/
def getIDs (st : SysState) (resp : Except String HomeResponse) (nameOrId : Option NameOrId) :
    List Request × Except BlinkError SysState :=
  match st.authHeader with
  | none => ([], .error (.exception "You have to be authenticated before calling this method"))
  | some hdr =>
    let req : Request := { method := .get, url := st.urls.homeUrl, headers := hdr }
    match resp with
    | .error body =>
      ([req], .error (.exception ("Can\x27t retrieve system status: " ++ body)))
    | .ok home =>
      match nameOrId with
      | some q =>
        let matched := home.networks.filter (networkMatches q)
        if matched.isEmpty then
          ([req], .error (.exception ("No network found for " ++ nameOrIdToString q)))
        else
          ([req], .ok (finishGetIDs { st with networks := st.networks ++ matched } home))
      | none =>
        if home.networks.isEmpty then
          ([req], .error (.exception "No networks found"))
        else
          ([req], .ok (finishGetIDs { st with networks := home.networks } home))

/-- `camera.motion = ...` in `getLastMotions`: the camera was located with
`Array.prototype.find`, so the first device with the matching id is the one
mutated. -/
def setMotionFirst : List BlinkDevice → Nat → MotionEvent → List BlinkDevice
  | [], _, _ => []
  | d :: ds, i, m =>
    if d.data.id == i then { d with motion := some m } :: ds
    else d :: setMotionFirst ds i m

/-- `result[camera_id] = ...` on a JS object: overwrite in place when the key
exists, append otherwise. -/
def upsertAssoc : List (Nat × MotionEvent) → Nat → MotionEvent → List (Nat × MotionEvent)
  | [], k, v => [(k, v)]
  | (k', v') :: rest, k, v =>
    if k' == k then (k, v) :: rest else (k', v') :: upsertAssoc rest k v

/-- The `videos.forEach` body of `getLastMotions` (lines 171-186): require a
known device for every entry, and for motion-type entries derive the event,
cache it on the device, and accumulate the keyed result. -/
def getLastMotionsGo (baseUrl : String) :
    List BlinkDevice → List VideoResponse → List (Nat × MotionEvent) →
    Except BlinkError (List BlinkDevice × List (Nat × MotionEvent))
  | devices, [], acc => .ok (devices, acc)
  | devices, v :: rest, acc =>
    if devices.any fun d => d.data.id == v.camera_id then
      if v.type == "motion" then
        let url := baseUrl ++ v.video_url
        let mev : MotionEvent :=
          { video := url, image := jsReplaceMotionImage url, time := v.created_at }
        getLastMotionsGo baseUrl (setMotionFirst devices v.camera_id mev) rest
          (upsertAssoc acc v.camera_id mev)
      else
        getLastMotionsGo baseUrl devices rest acc
    else
      .error (.exception "Camera not found")

/-- `getLastMotions` (`src/blink-camera-system.ts`, lines 167-188): fetch the
video listing (with `getVideos`'s defaults), then fold the entries into the
per-device motion cache and the result map. -/
def getLastMotions (st : SysState) (resp : Except String (List VideoResponse)) :
    List Request × Except BlinkError (SysState × List (Nat × MotionEvent)) :=
  let fetched := getVideos st resp 0 DEFAULT_SINCE_ISO
  match fetched.2 with
  | .error e => (fetched.1, .error e)
  | .ok videos =>
    match getLastMotionsGo st.urls.baseUrl st.devices videos [] with
    | .error e => (fetched.1, .error e)
    | .ok (devices, result) => (fetched.1, .ok ({ st with devices := devices }, result))

/-- The `splice` step of `getCameras` (lines 272-275): `findIndex` locates the
first device with the given id and `splice` removes exactly that one. -/
def removeFirstById : List BlinkDevice → Nat → List BlinkDevice
  | [], _ => []
  | d :: ds, i => if d.data.id == i then ds else d :: removeFirstById ds i

/-- One iteration of the `blinkDevices.forEach` body of `getCameras`: remove
any existing device with the new device's id, then append the new device. -/
def upsertDevice (devices : List BlinkDevice) (newDevice : BlinkDevice) : List BlinkDevice :=
  removeFirstById devices newDevice.data.id ++ [newDevice]

/-- The device-set mutation of `getCameras` (`src/blink-camera-system.ts`,
lines 259-281) after the summary fetch: for each camera and owl entry, stamp
the controller's region id into the descriptor, construct a `BlinkDevice`
from it, and replace-by-id into the device list. -/
def getCamerasUpdate (st : SysState) (summary : SummaryResponse) : List BlinkDevice :=
  let blinkDevices := summary.cameras ++ summary.owls
  blinkDevices.foldl
    (fun devs device =>
      upsertDevice devs
        (mkBlinkDevice { device with region_id := st.regionId } st.urls (st.authHeader.getD [])))
    st.devices

/-- `getCameras`: the filtered summary fetch followed by the device-set
update. -/
def getCameras (st : SysState) (resp : Except String SummaryResponse) :
    List Request × Except BlinkError SysState :=
  let fetched := getSummary st resp
  match fetched.2 with
  | .error e => (fetched.1, .error e)
  | .ok summary => (fetched.1, .ok { st with devices := getCamerasUpdate st summary })

/-- The ids of a device list, in order. -/
def deviceIds (devices : List BlinkDevice) : List Nat :=
  devices.map fun d => d.data.id

theorem removeFirstById_sublist (ds : List BlinkDevice) (k : Nat) :
    List.Sublist (removeFirstById ds k) ds := by
  induction ds with
  | nil => exact List.Sublist.refl _
  | cons d ds ih =>
    rw [removeFirstById]
    split
    · exact List.sublist_cons_self d ds
    · exact ih.cons₂ d

theorem nodup_deviceIds_removeFirstById (ds : List BlinkDevice) (k : Nat)
    (h : (deviceIds ds).Nodup) : (deviceIds (removeFirstById ds k)).Nodup := by
  simp only [deviceIds] at h ⊢
  exact List.Nodup.sublist ((removeFirstById_sublist ds k).map fun d => d.data.id) h

theorem not_mem_deviceIds_removeFirstById (ds : List BlinkDevice) (k : Nat)
    (h : (deviceIds ds).Nodup) : k ∉ deviceIds (removeFirstById ds k) := by
  induction ds with
  | nil => simp [removeFirstById, deviceIds]
  | cons d ds ih =>
    simp only [deviceIds, List.map_cons, List.nodup_cons] at h
    obtain ⟨hd, hnd⟩ := h
    rw [removeFirstById]
    split
    next heq =>
      have : d.data.id = k := eq_of_beq heq
      rw [← this]
      exact hd
    next hne =>
      have hk : d.data.id ≠ k := fun hh => hne (by rw [hh]; exact beq_self_eq_true k)
      simp only [deviceIds, List.map_cons, List.mem_cons]
      rintro (rfl | hm)
      · exact hk rfl
      · exact ih hnd hm

theorem deviceIds_upsertDevice (ds : List BlinkDevice) (d : BlinkDevice) :
    deviceIds (upsertDevice ds d) = deviceIds (removeFirstById ds d.data.id) ++ [d.data.id] := by
  simp [upsertDevice, deviceIds]

theorem nodup_deviceIds_upsertDevice (ds : List BlinkDevice) (d : BlinkDevice)
    (h : (deviceIds ds).Nodup) : (deviceIds (upsertDevice ds d)).Nodup := by
  rw [deviceIds_upsertDevice]
  refine List.Nodup.append (nodup_deviceIds_removeFirstById ds _ h) (List.nodup_singleton _) ?_
  intro a ha hb
  rw [List.mem_singleton] at hb
  subst hb
  exact not_mem_deviceIds_removeFirstById ds _ h ha

theorem filter_removeFirstById_eq_nil (ds : List BlinkDevice) (k : Nat)
    (h : (deviceIds ds).Nodup) :
    (removeFirstById ds k).filter (fun x => x.data.id == k) = [] := by
  rw [List.filter_eq_nil_iff]
  intro a ha hbeq
  have hid : a.data.id = k := eq_of_beq hbeq
  have hmem : a.data.id ∈ deviceIds (removeFirstById ds k) := by
    simp only [deviceIds]
    exact List.mem_map_of_mem (fun d => d.data.id) ha
  rw [hid] at hmem
  exact not_mem_deviceIds_removeFirstById ds k h hmem

theorem filter_upsertDevice (ds : List BlinkDevice) (d : BlinkDevice)
    (h : (deviceIds ds).Nodup) :
    (upsertDevice ds d).filter (fun x => x.data.id == d.data.id) = [d] := by
  rw [upsertDevice, List.filter_append, filter_removeFirstById_eq_nil ds _ h]
  simp [List.filter]

deriving instance DecidableEq for Except

def urlsC1 : BlinkUrls := createBlinkUrls (some 1234) (some "u001")

def camC1 : BlinkDeviceResponse :=
  { id := 5, name := "Porch", type := "camera", network_id := 1, region_id := some "u001",
    status := "armed", enabled := true, thumbnail := "/thumb/5", signals := none,
    battery := 2, updated_at := 7 }

/-- The spec's §8 motion-derivation example: a controller whose base URL is
`https://rest-u001.example.com` and which knows the device with id 5. -/
def stC1 : SysState :=
  { mkBlinkCameraSystem (some "u") (some "p") (some "d") none (some "u001") false with
    authHeader := some [("token-auth", some "tok")]
    urls := urlsC1
    devices := [mkBlinkDevice camC1 urlsC1 [("token-auth", some "tok")]] }

def videoC1 : VideoResponse :=
  { camera_id := 5, type := "motion", video_url := "/media/1.mp4", created_at := 1000 }

/-- The motion event the code actually produces at the spec's example input:
the image URL still ends in `.mp4`. -/
def mevC1 : MotionEvent :=
  { video := "https://rest-u001.example.com/media/1.mp4"
    image := "https://rest-u001.example.com/media/1.mp4"
    time := 1000 }

set_option maxRecDepth 4000

/-- Claim C1: the spec says that for the motion entry
`(video_url "/media/1.mp4", type "motion", camera_id 5, created_at 1000)` and
base URL `https://rest-u001.example.com`, `getLastMotions` derives
`image = base ++ "/media/1.jpg"` by suffix substitution.  The code does not:
its regex literal `\.[^.]+$]` carries a stray `]` after the `$` end anchor, so
it can never match and `replace` leaves the URL untouched — the produced
MotionEvent's image is `base ++ "/media/1.mp4"`, not the claimed `.jpg` URL.
This evaluates the embedded code at exactly the claim's input. -/
theorem getLastMotions_image_keeps_mp4_extension :
    (getLastMotions stC1 (.ok [videoC1])).2.map Prod.snd = .ok [(5, mevC1)]
    ∧ mevC1.video = "https://rest-u001.example.com/media/1.mp4"
    ∧ mevC1.image = "https://rest-u001.example.com/media/1.mp4"
    ∧ mevC1.image ≠ "https://rest-u001.example.com/media/1.jpg" := by
  refine ⟨?_, rfl, rfl, by decide⟩
  have h : jsReplaceMotionImage "https://rest-u001.example.com/media/1.mp4"
      = "https://rest-u001.example.com/media/1.mp4" := jsReplaceMotionImage_id _
  simp only [getLastMotions, getVideos, getLastMotionsGo, stC1, videoC1, mevC1, upsertAssoc,
    setMotionFirst, mkBlinkDevice, urlsC1, camC1, createBlinkUrls, jsNum, jsStr, BLINK_URL,
    mkBlinkCameraSystem, h]
  decide

/-- Claim C9: `update(newDescriptor)` fully replaces the device's raw data
fields and re-derives only the thumbnail and clip URLs, as the base URL plus
the new thumbnail path plus `.jpg`/`.mp4`; the arm link, image link, auth
header and urls of the device (and its cached motion event) are left
unchanged. -/
theorem update_replaces_data_and_rederives_media_urls
    (device : BlinkDevice) (values : BlinkDeviceResponse) :
    (device.update values).data = values
    ∧ (device.update values).thumbUrl = device.urls.baseUrl ++ values.thumbnail ++ ".jpg"
    ∧ (device.update values).clipUrl = device.urls.baseUrl ++ values.thumbnail ++ ".mp4"
    ∧ (device.update values).armLink = device.armLink
    ∧ (device.update values).imageLink = device.imageLink
    ∧ (device.update values).authHeader = device.authHeader
    ∧ (device.update values).urls = device.urls
    ∧ (device.update values).motion = device.motion :=
  ⟨rfl, rfl, rfl, rfl, rfl, rfl, rfl, rfl⟩

/-- A controller state with an established session and an empty selection,
as produced by the token path just before `getIDs` runs inside `init`. -/
def stC8 : SysState :=
  setupWithToken (mkBlinkCameraSystem none none none (some "tok") (some "u001") false)

def homeC8 : HomeResponse :=
  { networks := [{ id := 1, name := "Home", armed := false },
                 { id := 2, name := "Cabin", armed := false }]
    accountId := 42 }

/-- The network selection an invocation of `getIDs` leaves behind. -/
def getIDsSelection (st : SysState) (resp : Except String HomeResponse)
    (q : Option NameOrId) : Except BlinkError (List BlinkNetwork) :=
  (getIDs st resp q).2.map SysState.networks

/-- Claim C8: over a summary with networks `(1, "Home")` and `(2, "Cabin")`,
`getIDs` with `"Cabin"` selects exactly the id-2 network; with no argument it
selects both; with `99` (matching nothing) it raises NotFound; and with no
argument over an account with zero networks it raises NotFound. -/
theorem getIDs_selection_cases :
    getIDsSelection stC8 (.ok homeC8) (some (.str "Cabin"))
        = .ok [{ id := 2, name := "Cabin", armed := false }]
    ∧ getIDsSelection stC8 (.ok homeC8) none
        = .ok [{ id := 1, name := "Home", armed := false },
               { id := 2, name := "Cabin", armed := false }]
    ∧ getIDsSelection stC8 (.ok homeC8) (some (.num 99))
        = .error (.exception "No network found for 99")
    ∧ getIDsSelection stC8 (.ok { networks := [], accountId := 42 }) none
        = .error (.exception "No networks found") := by
  refine ⟨by decide, by decide, by decide, by decide⟩

/-- Claim C6: with a session established, every summary fetch filters the
networks, sync modules, cameras and owls down to entries whose network id is
in the controller's selected-networks set. -/
theorem getSummary_filters_to_selected_networks (st : SysState) (hdr : AuthHeader)
    (s : SummaryResponse) (h : st.authHeader = some hdr) :
    (getSummary st (.ok s)).2 = .ok (filterSummary st.networks s)
    ∧ (∀ nw ∈ (filterSummary st.networks s).networks, ∃ n ∈ st.networks, n.id = nw.id)
    ∧ (∀ m ∈ (filterSummary st.networks s).sync_modules, ∃ n ∈ st.networks, n.id = m.network_id)
    ∧ (∀ c ∈ (filterSummary st.networks s).cameras, ∃ n ∈ st.networks, n.id = c.network_id)
    ∧ (∀ o ∈ (filterSummary st.networks s).owls, ∃ n ∈ st.networks, n.id = o.network_id) := by
  refine ⟨by simp [getSummary, h], ?_, ?_, ?_, ?_⟩
  all_goals
    intro x hx
    simp only [filterSummary, List.mem_filter] at hx
    obtain ⟨n, hn, hbeq⟩ := List.any_eq_true.mp hx.2
    exact ⟨n, hn, eq_of_beq hbeq⟩

def hdrC6 : AuthHeader := [("token-auth", some "tok")]

def stC6 : SysState :=
  { mkBlinkCameraSystem (some "u") (some "p") (some "d") none (some "u001") false with
    authHeader := some hdrC6
    networks := [{ id := 1, name := "Home", armed := true }] }

def camC6a : BlinkDeviceResponse := { camC1 with id := 10, network_id := 1 }

def camC6b : BlinkDeviceResponse := { camC1 with id := 11, network_id := 2 }

def sC6 : SummaryResponse :=
  { networks := [], sync_modules := [], cameras := [camC6a, camC6b], owls := [] }

/-- Witness for claim C6 at the spec's concrete scenario: selected networks
are just id 1, the summary has cameras on networks 1 and 2, and the filtered
summary keeps only the network-1 camera, whose network id is covered by the
selection. -/
theorem getSummary_filters_to_selected_networks_witness :
    (getSummary stC6 (.ok sC6)).2 = .ok (filterSummary stC6.networks sC6)
    ∧ (∃ n ∈ stC6.networks, n.id = camC6a.network_id) :=
  ⟨(getSummary_filters_to_selected_networks stC6 hdrC6 sC6 rfl).1,
   (getSummary_filters_to_selected_networks stC6 hdrC6 sC6 rfl).2.2.2.1 camC6a (by decide)⟩

/-- Claim C10: after `_setupWithToken` the account id is still `null`, so the
account-scoped URLs of the derived EndpointSet (`armUrl`, `videoUrl`,
`homeUrl`) embed the literal string `"null"` where the account id belongs,
and the token path's first home-summary request — the one `getIDs` issues
before it can capture the real account id — targets exactly that null-bearing
home URL. -/
theorem setupWithToken_embeds_null_account_id (st : SysState)
    (resp : Except String HomeResponse) (q : Option NameOrId)
    (h : st.accountId = none) :
    (setupWithToken st).urls.armUrl
        = "https://rest-" ++ jsStr st.regionId ++ "." ++ BLINK_URL
          ++ "/api/v1/accounts/" ++ "null" ++ "/networks/"
    ∧ (setupWithToken st).urls.videoUrl
        = "https://rest-" ++ jsStr st.regionId ++ "." ++ BLINK_URL
          ++ "/api/v1/accounts/" ++ "null" ++ "/media/changed"
    ∧ (setupWithToken st).urls.homeUrl
        = "https://rest-" ++ jsStr st.regionId ++ "." ++ BLINK_URL
          ++ "/api/v3/accounts/" ++ "null" ++ "/homescreen"
    ∧ (getIDs (setupWithToken st) resp q).1
        = [{ method := .get, url := (setupWithToken st).urls.homeUrl,
             headers := [("token-auth", st.token)] }] := by
  refine ⟨?_, ?_, ?_, ?_⟩
  · simp [setupWithToken, createBlinkUrls, jsNum, h]
  · simp [setupWithToken, createBlinkUrls, jsNum, h]
  · simp [setupWithToken, createBlinkUrls, jsNum, h]
  · cases resp with
    | error body => simp [getIDs, setupWithToken]
    | ok home =>
      cases q with
      | none =>
        by_cases hn : home.networks.isEmpty <;> simp [getIDs, setupWithToken, hn]
      | some qq =>
        by_cases hm : (home.networks.filter (networkMatches qq)).isEmpty <;>
          simp [getIDs, setupWithToken, hm]

def stC10 : SysState := mkBlinkCameraSystem none none none (some "tok") (some "u001") false

/-- Witness for claim C10: a controller constructed with an existing token and
region `u001` and never logged in; its token-setup URLs embed `"null"` and the
first `getIDs` request goes to the null-bearing home URL. -/
theorem setupWithToken_embeds_null_account_id_witness :
    (setupWithToken stC10).urls.homeUrl
        = "https://rest-" ++ jsStr stC10.regionId ++ "." ++ BLINK_URL
          ++ "/api/v3/accounts/" ++ "null" ++ "/homescreen"
    ∧ (getIDs (setupWithToken stC10) (.ok homeC8) none).1
        = [{ method := .get, url := (setupWithToken stC10).urls.homeUrl,
             headers := [("token-auth", stC10.token)] }] :=
  ⟨(setupWithToken_embeds_null_account_id stC10 (.ok homeC8) none rfl).2.2.1,
   (setupWithToken_embeds_null_account_id stC10 (.ok homeC8) none rfl).2.2.2⟩

/-- A freshly constructed controller with credentials but no session. -/
def stNoAuth : SysState := mkBlinkCameraSystem (some "u") (some "p") (some "d") none none false

/-- Claim C3 counterexample: `getVideos` on a controller whose session was
never established does not fail fast — it issues its GET anyway (with an
empty header map, against the blank construction-state video URL) and
returns the transport's result, refuting "getVideos called with an empty
session fails immediately rather than issuing the request". -/
theorem getVideos_empty_session_issues_request :
    (getVideos stNoAuth (.ok []) 0 DEFAULT_SINCE_ISO).1
        = [{ method := .get, url := "?since=" ++ DEFAULT_SINCE_ISO ++ "&page=0", headers := [] }]
    ∧ (getVideos stNoAuth (.ok []) 0 DEFAULT_SINCE_ISO).1 ≠ []
    ∧ (getVideos stNoAuth (.ok []) 0 DEFAULT_SINCE_ISO).2 = .ok [] :=
  ⟨by decide, by decide, by decide⟩

/-- Claim C3 amended: operations that pass through `getSummary` or `getIDs`
(summary, cameras, online/armed status, network discovery) do fail fast with
the session error before any network request when the session is empty; but
`getVideos` — and therefore the video-listing step of `getLastMotions` —
performs no session check and issues its request with an empty header map. -/
theorem empty_session_fails_fast_except_getVideos (st : SysState)
    (sresp : Except String SummaryResponse) (hresp : Except String HomeResponse)
    (vresp : Except String (List VideoResponse)) (q : Option NameOrId)
    (page : Nat) (sinceIso : String) (h : st.authHeader = none) :
    getSummary st sresp = ([], .error (.exception "Authentication token must be set"))
    ∧ getIDs st hresp q
        = ([], .error (.exception "You have to be authenticated before calling this method"))
    ∧ (getVideos st vresp page sinceIso).1
        = [{ method := .get,
             url := st.urls.videoUrl ++ "?since=" ++ sinceIso ++ "&page=" ++ toString page,
             headers := [] }] := by
  refine ⟨?_, ?_, ?_⟩
  · simp [getSummary, h]
  · simp [getIDs, h]
  · cases vresp <;> simp [getVideos, h]

/-- Witness for the amended claim C3, at the fresh controller: the summary
and discovery operations fail fast with the session errors while `getVideos`
still issues one request. -/
theorem empty_session_fails_fast_except_getVideos_witness :
    getSummary stNoAuth (.ok sC6) = ([], .error (.exception "Authentication token must be set"))
    ∧ getIDs stNoAuth (.ok homeC8) none
        = ([], .error (.exception "You have to be authenticated before calling this method"))
    ∧ (getVideos stNoAuth (.ok []) 0 DEFAULT_SINCE_ISO).1
        = [{ method := .get,
             url := stNoAuth.urls.videoUrl ++ "?since=" ++ DEFAULT_SINCE_ISO ++ "&page=" ++ toString 0,
             headers := [] }] :=
  empty_session_fails_fast_except_getVideos stNoAuth (.ok sC6) (.ok homeC8) (.ok []) none 0
    DEFAULT_SINCE_ISO rfl

def rOkC4 : LoginResponseData :=
  { account := { account_id := 1000, client_id := 2000, tier := "u001", region := some "eu",
                 account_verification_required := false, client_verification_required := false }
    authToken := "tok12" }

def envC4 : AuthEnv := { login := fun _ => .ok rOkC4, pinVerify := .ok () }

def stC4 : SysState := mkBlinkCameraSystem (some "") (some "pw") (some "dev") none none false

/-- Claim C4 counterexample: with the username being the empty string — a
string that is not a non-empty string — `_getAuthToken` does not fail with an
AuthenticationError before the network call: its validation only checks
`typeof x != "string"`, so the login POST is issued and here even completes
successfully. -/
theorem getAuthToken_empty_username_proceeds_to_network :
    (getAuthToken envC4 2 0 stC4).2.1 = [.loginRequest LOGIN_URL]
    ∧ (getAuthToken envC4 2 0 stC4).2.2 = .ok () :=
  ⟨by decide, by decide⟩

/-- Claim C4 amended: `_getAuthToken` fails immediately with an
AuthenticationError, before any network call and without touching the state,
exactly when the username, password or device identifier is not a string at
all (`null`/`undefined`); an empty string passes the `typeof` validation and
the login request is issued. -/
theorem getAuthToken_nonstring_credentials_fail_before_network (env : AuthEnv)
    (st : SysState) (fuel retries : Nat)
    (h : st.username = none ∨ st.password = none ∨ st.deviceId = none) :
    (getAuthToken env (fuel + 1) retries st).2.1 = []
    ∧ (getAuthToken env (fuel + 1) retries st).1 = st
    ∧ ∃ msg, (getAuthToken env (fuel + 1) retries st).2.2 = .error (.authException msg) := by
  rcases h with h | h | h
  · simp [getAuthToken, h]
  · cases hu : st.username with
    | none => simp [getAuthToken, hu]
    | some u => simp [getAuthToken, hu, h]
  · cases hu : st.username with
    | none => simp [getAuthToken, hu]
    | some u =>
      cases hp : st.password with
      | none => simp [getAuthToken, hu, hp]
      | some p => simp [getAuthToken, hu, hp, h]

def stC4w : SysState := mkBlinkCameraSystem none (some "pw") (some "dev") none none false

/-- Witness for the amended claim C4: a `null` username fails fast with an
AuthenticationError, an empty trace and an untouched state. -/
theorem getAuthToken_nonstring_credentials_witness :
    (getAuthToken envC4 1 0 stC4w).2.1 = []
    ∧ (getAuthToken envC4 1 0 stC4w).1 = stC4w
    ∧ ∃ msg, (getAuthToken envC4 1 0 stC4w).2.2 = .error (.authException msg) :=
  getAuthToken_nonstring_credentials_fail_before_network envC4 stC4w 0 0 (Or.inl rfl)

/-- Claim C2 amended: when the 2FA pin-verification request fails, the login
rejects with an AuthenticationError, but the session is NOT left in its
all-null construction state: the token, account id, region tier and region
were already captured from the partial login response before the
verification POST; only the auth header, host and urls keep their previous
construction values, so the operations that gate on the auth header still
treat the session as absent. -/
theorem pin_verify_failure_leaves_partial_session (env : AuthEnv) (st : SysState)
    (fuel : Nat) (r : LoginResponseData) (body : String)
    (hu : st.username.isNone = false) (hp : st.password.isNone = false)
    (hd : st.deviceId.isNone = false) (h2fa : st.auth2fa = true)
    (h0 : env.login 0 = .ok r)
    (hv : (r.account.account_verification_required
            || r.account.client_verification_required) = true)
    (hpin : env.pinVerify = .error body) :
    (getAuthToken env (fuel + 1) 0 st).2.2
        = .error (.authException ("Authentication problem (verify response): " ++ body))
    ∧ (getAuthToken env (fuel + 1) 0 st).1.token = some r.authToken
    ∧ (getAuthToken env (fuel + 1) 0 st).1.accountId = some r.account.account_id
    ∧ (getAuthToken env (fuel + 1) 0 st).1.regionId = some r.account.tier
    ∧ (getAuthToken env (fuel + 1) 0 st).1.region = r.account.region
    ∧ (getAuthToken env (fuel + 1) 0 st).1.authHeader = st.authHeader
    ∧ (getAuthToken env (fuel + 1) 0 st).1.host = st.host
    ∧ (getAuthToken env (fuel + 1) 0 st).1.urls = st.urls := by
  simp [getAuthToken, hu, hp, hd, h2fa, h0, hv, hpin]

def rVerC2 : LoginResponseData :=
  { account := { account_id := 1000, client_id := 2000, tier := "u001", region := some "eu",
                 account_verification_required := true, client_verification_required := false }
    authToken := "tok12" }

def envC2 : AuthEnv := { login := fun _ => .ok rVerC2, pinVerify := .error "denied" }

def stC2 : SysState := mkBlinkCameraSystem (some "u") (some "p") (some "d") none none true

/-- Claim C2 counterexample: a 2FA login whose pin-verification request fails
leaves the session partially set — the token and account id fields are no
longer null even though the login rejected — refuting "the session fields
remain in their empty (all-null) construction state". -/
theorem pin_verify_failure_not_all_null :
    (getAuthToken envC2 1 0 stC2).2.2
        = .error (.authException "Authentication problem (verify response): denied")
    ∧ (getAuthToken envC2 1 0 stC2).1.token = some "tok12"
    ∧ (getAuthToken envC2 1 0 stC2).1.token ≠ none
    ∧ (getAuthToken envC2 1 0 stC2).1.accountId ≠ none :=
  ⟨by decide, by decide, by decide, by decide⟩

/-- Witness for the amended claim C2 at the concrete failing 2FA run. -/
theorem pin_verify_failure_leaves_partial_session_witness :
    (getAuthToken envC2 1 0 stC2).2.2
        = .error (.authException ("Authentication problem (verify response): " ++ "denied"))
    ∧ (getAuthToken envC2 1 0 stC2).1.authHeader = stC2.authHeader
    ∧ (getAuthToken envC2 1 0 stC2).1.urls = stC2.urls :=
  ⟨(pin_verify_failure_leaves_partial_session envC2 stC2 0 rVerC2 "denied"
      rfl rfl rfl rfl rfl rfl rfl).1,
   (pin_verify_failure_leaves_partial_session envC2 stC2 0 rVerC2 "denied"
      rfl rfl rfl rfl rfl rfl rfl).2.2.2.2.2.1,
   (pin_verify_failure_leaves_partial_session envC2 stC2 0 rVerC2 "denied"
      rfl rfl rfl rfl rfl rfl rfl).2.2.2.2.2.2.2⟩

/-- Claim C5: in the no-2FA path, a first login response requiring
verification schedules exactly one retry after the configured delay; when the
retry's response also requires verification the call rejects with the
"verification timeout" AuthenticationError, and no third login attempt is
made — the trace holds exactly two login requests, for every recursion-fuel
bound, so the bound is not what stops the retries. -/
theorem no2fa_verification_exactly_one_retry (env : AuthEnv) (st : SysState) (fuel : Nat)
    (r0 r1 : LoginResponseData)
    (hu : st.username.isNone = false) (hp : st.password.isNone = false)
    (hd : st.deviceId.isNone = false) (h2fa : st.auth2fa = false)
    (h0 : env.login 0 = .ok r0) (h1 : env.login 1 = .ok r1)
    (hv0 : (r0.account.account_verification_required
             || r0.account.client_verification_required) = true)
    (hv1 : (r1.account.account_verification_required
             || r1.account.client_verification_required) = true) :
    getAuthToken env (fuel + 2) 0 st
      = (st, [.loginRequest LOGIN_URL, .retryScheduled st.verificationTimeout,
              .loginRequest LOGIN_URL],
         .error (.authException "Authentication problem (retry): verification timeout"))
    ∧ ((getAuthToken env (fuel + 2) 0 st).2.1.filter AuthEvent.isLoginRequest).length = 2 := by
  have hmain : getAuthToken env (fuel + 2) 0 st
      = (st, [.loginRequest LOGIN_URL, .retryScheduled st.verificationTimeout,
              .loginRequest LOGIN_URL],
         .error (.authException "Authentication problem (retry): verification timeout")) := by
    have h21 : fuel + 2 = (fuel + 1) + 1 := rfl
    rw [h21]
    rcases Bool.or_eq_true_iff.mp hv0 with hv0r | hv0r <;>
      rcases Bool.or_eq_true_iff.mp hv1 with hv1r | hv1r <;>
        simp [getAuthToken, hu, hp, hd, h2fa, h0, h1, hv0r, hv1r]
  exact ⟨hmain, by rw [hmain]; simp [AuthEvent.isLoginRequest]⟩

def envC5 : AuthEnv := { login := fun _ => .ok rVerC2, pinVerify := .ok () }

def stC5 : SysState := mkBlinkCameraSystem (some "u") (some "p") (some "d") none none false

/-- Witness for claim C5 at a concrete run whose two login responses both
require verification. -/
theorem no2fa_verification_exactly_one_retry_witness :
    getAuthToken envC5 2 0 stC5
      = (stC5, [.loginRequest LOGIN_URL, .retryScheduled stC5.verificationTimeout,
                .loginRequest LOGIN_URL],
         .error (.authException "Authentication problem (retry): verification timeout"))
    ∧ ((getAuthToken envC5 2 0 stC5).2.1.filter AuthEvent.isLoginRequest).length = 2 :=
  no2fa_verification_exactly_one_retry envC5 stC5 0 rVerC2 rVerC2
    rfl rfl rfl rfl rfl rfl rfl rfl

/-- A single-camera summary carrying descriptor `d` with thumbnail path `t`. -/
def summaryOf (d : BlinkDeviceResponse) (t : String) : SummaryResponse :=
  { networks := [], sync_modules := [], cameras := [{ d with thumbnail := t }], owls := [] }

/-- Claim C7: device ids stay unique in the controller's device set, and the
device-set update of `getCameras` has last-write-wins replace semantics:
from any device set with unique ids, discovering the same device id twice
with a changed thumbnail path leaves exactly one record for that id — the one
built from the second descriptor, whose thumbnail URL is re-derived from the
new path — with no duplicate, and id-uniqueness is preserved. -/
theorem getCameras_replace_semantics (st : SysState) (d : BlinkDeviceResponse)
    (t1 t2 : String) (hnd : (deviceIds st.devices).Nodup) :
    getCamerasUpdate st (summaryOf d t1)
      = upsertDevice st.devices
          (mkBlinkDevice { d with thumbnail := t1, region_id := st.regionId } st.urls
            (st.authHeader.getD []))
    ∧ ((getCamerasUpdate { st with devices := getCamerasUpdate st (summaryOf d t1) }
          (summaryOf d t2)).filter fun dev => dev.data.id == d.id)
      = [mkBlinkDevice { d with thumbnail := t2, region_id := st.regionId } st.urls
          (st.authHeader.getD [])]
    ∧ (mkBlinkDevice { d with thumbnail := t2, region_id := st.regionId } st.urls
        (st.authHeader.getD [])).thumbUrl = st.urls.baseUrl ++ t2 ++ ".jpg"
    ∧ (deviceIds (getCamerasUpdate { st with devices := getCamerasUpdate st (summaryOf d t1) }
        (summaryOf d t2))).Nodup := by
  have e1 : getCamerasUpdate st (summaryOf d t1)
      = upsertDevice st.devices
          (mkBlinkDevice { d with thumbnail := t1, region_id := st.regionId } st.urls
            (st.authHeader.getD [])) := rfl
  have e2 : getCamerasUpdate { st with devices := getCamerasUpdate st (summaryOf d t1) }
        (summaryOf d t2)
      = upsertDevice (getCamerasUpdate st (summaryOf d t1))
          (mkBlinkDevice { d with thumbnail := t2, region_id := st.regionId } st.urls
            (st.authHeader.getD [])) := rfl
  have hnd1 : (deviceIds (getCamerasUpdate st (summaryOf d t1))).Nodup := by
    rw [e1]
    exact nodup_deviceIds_upsertDevice _ _ hnd
  refine ⟨e1, ?_, rfl, ?_⟩
  · rw [e2]
    exact filter_upsertDevice (getCamerasUpdate st (summaryOf d t1))
      (mkBlinkDevice { d with thumbnail := t2, region_id := st.regionId } st.urls
        (st.authHeader.getD [])) hnd1
  · rw [e2]
    exact nodup_deviceIds_upsertDevice _ _ hnd1

/-- Witness for claim C7: starting from the fresh controller (no devices),
discovering device id 5 with thumbnail path "/t1" and then "/t2" leaves
exactly one record for id 5, built from the second descriptor, with id
uniqueness preserved. -/
theorem getCameras_replace_semantics_witness :
    ((getCamerasUpdate
        { stNoAuth with devices := getCamerasUpdate stNoAuth (summaryOf camC1 "/t1") }
        (summaryOf camC1 "/t2")).filter fun dev => dev.data.id == camC1.id)
      = [mkBlinkDevice { camC1 with thumbnail := "/t2", region_id := stNoAuth.regionId }
          stNoAuth.urls (stNoAuth.authHeader.getD [])]
    ∧ (deviceIds (getCamerasUpdate
        { stNoAuth with devices := getCamerasUpdate stNoAuth (summaryOf camC1 "/t1") }
        (summaryOf camC1 "/t2"))).Nodup :=
  ⟨(getCameras_replace_semantics stNoAuth camC1 "/t1" "/t2" (by decide)).2.1,
   (getCameras_replace_semantics stNoAuth camC1 "/t1" "/t2" (by decide)).2.2.2⟩
